import Mathlib

/-!
Verification of `src/llm_application.py` (LLM-Project): a shallow embedding
of the Prompt Builder (`_format_query`), the Completion Invoker
(`_call_llm`) and the orchestrator (`process_query`), together with
theorems settling the specification claims about them.
-/

namespace LLMApp

/-- The constant text of the Python f-string in `_format_query` that comes
before the single `query` interpolation (lines 70-113 of the source).
Python renders the doubled braces as single braces; braces are written as
hex escapes and the apostrophe as an escape, one Lean literal per source
line. -/
def promptHead : String :=
  "\n"
  ++ "        Extract the following details from the query:\n"
  ++ "        1. Entity (Company name)\n"
  ++ "        2. Metric (Performance metric like revenue, profit, GMV, etc.)\n"
  ++ "        3. Start Date (The start of the time period in YYYY-MM-DD format)\n"
  ++ "        4. End Date (The end of the time period in YYYY-MM-DD format)\n"
  ++ "\n"
  ++ "        Example Queries:\n"
  ++ "        - Query: \"What was Amazon\x27s revenue in 2023?\"\n"
  ++ "          Expected Output: [\x7b\n"
  ++ "            \"Entity\": \"Amazon\",\n"
  ++ "            \"Metric\": \"revenue\",\n"
  ++ "            \"Start Date\": \"2023-01-01\",\n"
  ++ "            \"End Date\": \"2023-12-31\"\n"
  ++ "        \x7d]\n"
  ++ "\n"
  ++ "        - Query: \"How much profit did Flipkart make in 2022?\"\n"
  ++ "          Expected Output: [\x7b\n"
  ++ "            \"Entity\": \"Flipkart\",\n"
  ++ "            \"Metric\": \"profit\",\n"
  ++ "            \"Start Date\": \"2022-01-01\",\n"
  ++ "            \"End Date\": \"2022-12-31\"\n"
  ++ "        \x7d]\n"
  ++ "        Must remember these points :\n"
  ++ "        Your task is to simply give json output of the query in expected format and nothing else. \n"
  ++ "        If the user query does not explicitly mention the start date and/or end date, assume the following defaults:\n"
  ++ "        - Start Date: Today\x27s date minus one year.\n"
  ++ "        - End Date: Today\x27s date.\n"
  ++ "        If query contains multiple companies then create a sepearete object for each company and return the array of object.\n"
  ++ "        Format will look like this \n"
  ++ "        [\x7b\n"
  ++ "            \"Entity\": \"Flipkart\",\n"
  ++ "            \"Metric\": \"profit\",\n"
  ++ "            \"Start Date\": \"2022-01-01\",\n"
  ++ "            \"End Date\": \"2022-12-31\"\n"
  ++ "        \x7d,\n"
  ++ "        \x7b\n"
  ++ "            \"Entity\": \"Amazon\",\n"
  ++ "            \"Metric\": \"revenue\",\n"
  ++ "            \"Start Date\": \"2023-01-01\",\n"
  ++ "            \"End Date\": \"2023-12-31\"\n"
  ++ "        \x7d]\n"
  ++ "        Query: \n"
  ++ "        \""

/-- The constant text of the f-string after the `query` interpolation: the
closing quote, a blank line, and the final indentation before the closing
triple quote (lines 113-115 of the source). -/
def promptTail : String :=
  "\"\n"
  ++ "\n"
  ++ "        "

/-- Embedding of `LLMPerformanceMetrics._format_query`: the Python f-string
has exactly one interpolation site, so its value is the constant head, the
raw query text, and the constant tail concatenated. -/
def formatQuery (query : String) : String :=
  promptHead ++ query ++ promptTail

/-- A calendar date (year, month, day), standing for the ambient current
date at prompt-construction time. -/
structure Date where
  year : Nat
  month : Nat
  day : Nat

/-- Two-digit zero padding used by ISO 8601 month and day fields. -/
def pad2 (n : Nat) : String :=
  if n < 10 then "0" ++ toString n else toString n

/-- ISO 8601 `YYYY-MM-DD` rendering of a date. -/
def isoFormat (d : Date) : String :=
  toString d.year ++ "-" ++ pad2 d.month ++ "-" ++ pad2 d.day

/-- `_format_query` with the ambient current date made explicit. The source
imports `datetime` and `timedelta` but the method body reads no clock and
performs no date arithmetic, so the date parameter is unused. -/
def formatQueryAt (_today : Date) (query : String) : String :=
  formatQuery query

/-- Boolean scanner deciding whether `pat` occurs as a contiguous sublist
of `l`. -/
def infixOfB (pat : List Char) : List Char → Bool
  | [] => pat.isEmpty
  | c :: rest => pat.isPrefixOf (c :: rest) || infixOfB pat rest

/-- Literal substring containment: `pat` occurs contiguously in `s`. -/
def strContains (s pat : String) : Bool :=
  infixOfB pat.data s.data

/-- The first worked example of the prompt, verbatim (source lines 78-84
as rendered): the Amazon / revenue / 2023 query with its expected output. -/
def amazonExample : String :=
  "- Query: \"What was Amazon\x27s revenue in 2023?\"\n"
  ++ "          Expected Output: [\x7b\n"
  ++ "            \"Entity\": \"Amazon\",\n"
  ++ "            \"Metric\": \"revenue\",\n"
  ++ "            \"Start Date\": \"2023-01-01\",\n"
  ++ "            \"End Date\": \"2023-12-31\"\n"
  ++ "        \x7d]"

/-- The second worked example of the prompt, verbatim (source lines 86-92
as rendered): the Flipkart / profit / 2022 query with its expected output. -/
def flipkartExample : String :=
  "- Query: \"How much profit did Flipkart make in 2022?\"\n"
  ++ "          Expected Output: [\x7b\n"
  ++ "            \"Entity\": \"Flipkart\",\n"
  ++ "            \"Metric\": \"profit\",\n"
  ++ "            \"Start Date\": \"2022-01-01\",\n"
  ++ "            \"End Date\": \"2022-12-31\"\n"
  ++ "        \x7d]"

/-- The multi-entity instruction of the prompt, verbatim (source line 98). -/
def multiEntityRule : String :=
  "If query contains multiple companies then create a sepearete object for each company and return the array of object."

/-- The JSON-only instruction of the prompt, verbatim (source line 94). -/
def jsonOnlyRule : String :=
  "Your task is to simply give json output of the query in expected format and nothing else."

/-- The textual default rule for the start date, verbatim (source line 96). -/
def startDateRule : String :=
  "- Start Date: Today\x27s date minus one year."

/-- The textual default rule for the end date, verbatim (source line 97). -/
def endDateRule : String :=
  "- End Date: Today\x27s date."

/-- A Python exception raised by the transport call inside `_call_llm`:
its message, and whether it is an instance of
`requests.exceptions.RequestException` (the only class the except clause
catches). -/
structure Exc where
  msg : String
  isRequestException : Bool

/-- The value `_call_llm` hands back to `process_query`: either the raw
response object of the completion call, of abstract type `V`, or the
one-key dictionary built in the except branch, whose single key is
`error` and whose value is the carried message. -/
inductive LLMResult (V : Type) where
  | raw (v : V)
  | errorDict (msg : String)

/-- The Python membership test `"error" in llm_response`: on the one-key
error dictionary it is true; on a raw response object it is whatever the
object yields, abstracted as `inOp`. -/
def hasErrorKey {V : Type} (inOp : V → Bool) : LLMResult V → Bool
  | .raw v => inOp v
  | .errorDict _ => true

/-- The lookup `llm_response["error"]` printed on the error branch of
`process_query`, abstracted on raw objects as `getErr`. -/
def errorVal {V : Type} (getErr : V → String) : LLMResult V → String
  | .raw v => getErr v
  | .errorDict m => m

/-- The process-wide state: the module-level `API_KEY`, which
`os.getenv` delivers as a string or as `None`. -/
structure AppState where
  apiKey : Option String

/-- The import-time initialisation `load_dotenv(); API_KEY =
os.getenv(\x27API_KEY\x27)`: one environment read at process start. -/
def initState (env : String → Option String) : AppState :=
  ⟨env "API_KEY"⟩

/-- The fixed text prepended to the exception message in the error
dictionary of `_call_llm`. -/
def apiErrMsg : String :=
  "Failed to retrieve data from the LLM API : "

/-- Embedding of `_call_llm`. The transport abstracts
`Groq(model=..., api_key=...).complete(prompt)`: a function of the held
key and the formatted prompt that either returns a response object or
raises. The except clause catches only
`requests.exceptions.RequestException`, printing and returning the error
dictionary; every other exception propagates (`Except.error`). The result
carries the state, the outcome, and the lines printed inside the call. -/
def callLLM {V : Type} (transport : Option String → String → Except Exc V)
    (st : AppState) (query : String) :
    AppState × Except Exc (LLMResult V × List String) :=
  (st,
    match transport st.apiKey (formatQuery query) with
    | .ok v => .ok (.raw v, [])
    | .error e =>
      if e.isRequestException then
        .ok (.errorDict (apiErrMsg ++ e.msg),
             ["Error calling LLM API: " ++ e.msg])
      else
        .error e)

/-- Embedding of `process_query`: print the processing line, call
`_call_llm`, then branch on `"error" in llm_response` only to choose the
status line, returning `llm_response` itself in both branches. An
exception escaping `_call_llm` propagates. -/
def processQuery {V : Type} (transport : Option String → String → Except Exc V)
    (inOp : V → Bool) (getErr : V → String) (st : AppState) (query : String) :
    AppState × Except Exc (LLMResult V × List String) :=
  let c := callLLM transport st query
  (c.1,
    match c.2 with
    | .error e => .error e
    | .ok (r, logs) =>
      .ok (r, "Processing Query..." :: logs ++
        [if hasErrorKey inOp r then "Error: " ++ errorVal getErr r
         else "Query Processed Successfully!"]))

/-! ### Helper lemmas about the substring scanner -/

set_option maxRecDepth 100000

theorem infixOfB_nil (l : List Char) : infixOfB [] l = true := by
  cases l <;> rfl

theorem isPrefixOf_extend (pat p r : List Char) (h : pat.isPrefixOf p = true) :
    pat.isPrefixOf (p ++ r) = true := by
  induction pat generalizing p with
  | nil => simp
  | cons a as ih =>
    cases p with
    | nil => simp at h
    | cons b bs =>
      simp only [List.cons_append, List.isPrefixOf_cons₂, Bool.and_eq_true] at h ⊢
      exact ⟨h.1, ih bs h.2⟩

theorem isPrefixOf_refl (l : List Char) : l.isPrefixOf l = true := by
  induction l with
  | nil => simp
  | cons a as ih => simp [List.isPrefixOf_cons₂, ih]

theorem infixOfB_extend (pat p r : List Char) (h : infixOfB pat p = true) :
    infixOfB pat (p ++ r) = true := by
  induction p with
  | nil =>
    cases pat with
    | nil => exact infixOfB_nil r
    | cons a as => simp [infixOfB, List.isEmpty] at h
  | cons c rest ih =>
    simp only [infixOfB, Bool.or_eq_true] at h
    rcases h with h | h
    · simp only [List.cons_append, infixOfB, Bool.or_eq_true]
      exact Or.inl (isPrefixOf_extend _ _ _ h)
    · simp only [List.cons_append, infixOfB, Bool.or_eq_true]
      exact Or.inr (ih h)

theorem infixOfB_shift (pat s t : List Char) (h : infixOfB pat t = true) :
    infixOfB pat (s ++ t) = true := by
  induction s with
  | nil => simpa using h
  | cons c rest ih =>
    simp only [List.cons_append, infixOfB, Bool.or_eq_true]
    exact Or.inr ih

theorem infixOfB_refl (l : List Char) : infixOfB l l = true := by
  cases l with
  | nil => rfl
  | cons a as => simp [infixOfB, isPrefixOf_refl]

theorem strContains_extend (a b pat : String) (h : strContains a pat = true) :
    strContains (a ++ b) pat = true := by
  simpa [strContains, String.data_append] using infixOfB_extend pat.data a.data b.data h

theorem strContains_head (pat q : String) (h : strContains promptHead pat = true) :
    strContains (formatQuery q) pat = true := by
  have h1 : strContains (promptHead ++ q) pat = true := strContains_extend _ _ _ h
  have h2 : strContains ((promptHead ++ q) ++ promptTail) pat = true :=
    strContains_extend _ _ _ h1
  simpa [formatQuery, String.append_assoc] using h2

theorem strContains_query (q : String) : strContains (formatQuery q) q = true := by
  have h0 : infixOfB q.data (q.data ++ promptTail.data) = true :=
    infixOfB_extend q.data q.data promptTail.data (infixOfB_refl q.data)
  have h1 : infixOfB q.data (promptHead.data ++ (q.data ++ promptTail.data)) = true :=
    infixOfB_shift q.data promptHead.data _ h0
  simpa [strContains, formatQuery, String.data_append, List.append_assoc] using h1

/-! ### Claim theorems -/

/-- C1, counterexample: at the current date 2024-12-25 (the date in the
source header) and the query of the spec scenario, the prompt built by
the code does not contain the ISO rendering of that date, so it contains
no EndDate equal to today; the claim as stated fails. The method computes
no dates at all. -/
theorem c1_counterexample :
    strContains
      (formatQueryAt ⟨2024, 12, 25⟩ "What was Amazon\x27s revenue in 2023?")
      (isoFormat ⟨2024, 12, 25⟩) = false := by
  decide

/-- C1, amended: the Prompt Builder output is independent of the current
date, and for every query it contains the default date range only as the
two verbatim textual instructions about Todays date, not as ISO dates
computed at prompt-construction time. -/
theorem c1_amended (d : Date) (q : String) :
    formatQueryAt d q = formatQuery q ∧
    strContains (formatQueryAt d q) startDateRule = true ∧
    strContains (formatQueryAt d q) endDateRule = true :=
  ⟨rfl, strContains_head _ q (by decide), strContains_head _ q (by decide)⟩

/-- C2, counterexample: a transport failure that is not a
requests.exceptions.RequestException (the only class the except clause
names) propagates out of process_query instead of becoming an error
dictionary, so the claim as stated fails: process_query raises. -/
theorem c2_counterexample :
    (@processQuery Unit (fun _ _ => Except.error ⟨"boom", false⟩)
      (fun _ => false) (fun _ => "") ⟨none⟩ "q").2 =
    Except.error ⟨"boom", false⟩ := rfl

/-- C2, amended: whenever the transport call raises a
requests.exceptions.RequestException, process_query returns the one-key
dictionary mapping error to the fixed text followed by the exception
message, raises nothing itself, and prints that same message. -/
theorem c2_amended {V : Type} (transport : Option String → String → Except Exc V)
    (inOp : V → Bool) (getErr : V → String) (st : AppState) (q : String) (e : Exc)
    (htr : transport st.apiKey (formatQuery q) = Except.error e)
    (hreq : e.isRequestException = true) :
    (processQuery transport inOp getErr st q).2 =
      Except.ok (LLMResult.errorDict (apiErrMsg ++ e.msg),
        ["Processing Query...", "Error calling LLM API: " ++ e.msg,
         "Error: " ++ (apiErrMsg ++ e.msg)]) := by
  simp [processQuery, callLLM, htr, hreq, hasErrorKey, errorVal]

/-- C2, witness: the amended theorem applied to a concrete failing
transport whose exception is a RequestException. -/
theorem c2_witness :
    (@processQuery Unit (fun _ _ => Except.error ⟨"netfail", true⟩)
      (fun _ => false) (fun _ => "") ⟨none⟩ "hi").2 =
      Except.ok (LLMResult.errorDict (apiErrMsg ++ "netfail"),
        ["Processing Query...", "Error calling LLM API: " ++ "netfail",
         "Error: " ++ (apiErrMsg ++ "netfail")]) :=
  c2_amended (fun _ _ => Except.error ⟨"netfail", true⟩) (fun _ => false)
    (fun _ => "") ⟨none⟩ "hi" ⟨"netfail", true⟩ rfl rfl

/-- C3: when the transport call succeeds with a response object v of any
shape, process_query returns exactly that object, unmodified and
unexamined, wrapped by no parsing or repair; the membership test on v
influences only the printed status line. -/
theorem c3_passthrough {V : Type} (transport : Option String → String → Except Exc V)
    (inOp : V → Bool) (getErr : V → String) (st : AppState) (q : String) (v : V)
    (htr : transport st.apiKey (formatQuery q) = Except.ok v) :
    (processQuery transport inOp getErr st q).2 =
      Except.ok (LLMResult.raw v,
        ["Processing Query...",
         if inOp v then "Error: " ++ getErr v
         else "Query Processed Successfully!"]) := by
  simp [processQuery, callLLM, htr, hasErrorKey, errorVal]

/-- C3, witness: the pass-through theorem applied to a concrete
successful transport returning a raw string. -/
theorem c3_witness :
    (@processQuery String (fun _ _ => Except.ok "raw output") (fun _ => false)
      (fun _ => "") ⟨none⟩ "hi").2 =
      Except.ok (LLMResult.raw "raw output",
        ["Processing Query...", "Query Processed Successfully!"]) :=
  c3_passthrough (fun _ _ => Except.ok "raw output") (fun _ => false)
    (fun _ => "") ⟨none⟩ "hi" "raw output" rfl

/-- C4: process_query sequences the Prompt Builder with the Completion
Invoker (its outcome is wholly determined by the outcome of callLLM on
the formatted query) and branches only on the presence of the error key,
solely to choose the status line; in the non-raising branch it returns
the raw result unchanged, and a propagating exception passes through. -/
theorem c4_orchestration {V : Type} (transport : Option String → String → Except Exc V)
    (inOp : V → Bool) (getErr : V → String) (st : AppState) (q : String) :
    (∀ e : Exc, (callLLM transport st q).2 = Except.error e →
      (processQuery transport inOp getErr st q).2 = Except.error e) ∧
    (∀ (r : LLMResult V) (logs : List String),
      (callLLM transport st q).2 = Except.ok (r, logs) →
      (processQuery transport inOp getErr st q).2 =
        Except.ok (r, "Processing Query..." :: logs ++
          [if hasErrorKey inOp r then "Error: " ++ errorVal getErr r
           else "Query Processed Successfully!"])) := by
  constructor
  · intro e h
    simp [processQuery, h]
  · intro r logs h
    simp [processQuery, h]

/-- C4, witness: the orchestration theorem applied to a concrete
successful transport. -/
theorem c4_witness :
    (@processQuery Unit (fun _ _ => Except.ok ()) (fun _ => false)
      (fun _ => "") ⟨none⟩ "hi").2 =
      Except.ok (LLMResult.raw (),
        ["Processing Query...", "Query Processed Successfully!"]) :=
  (c4_orchestration (fun _ _ => Except.ok ()) (fun _ => false) (fun _ => "")
    ⟨none⟩ "hi").2 (LLMResult.raw ()) [] rfl

/-- C5: given a fixed current date, the Prompt Builder is deterministic;
indeed its output does not depend on the date at all and is a function of
the query alone, so two calls with the same query are byte-identical. -/
theorem c5_deterministic (d₁ d₂ : Date) (q : String) :
    formatQueryAt d₁ q = formatQueryAt d₂ q ∧ formatQueryAt d₁ q = formatQuery q :=
  ⟨rfl, rfl⟩

/-- C6: for every query the Prompt Builder output contains the literal
query text and both worked examples verbatim; for the Amazon scenario
query the output literally contains the quoted fragment. -/
theorem c6_contains (q : String) :
    strContains (formatQuery q) q = true ∧
    strContains (formatQuery q) amazonExample = true ∧
    strContains (formatQuery q) flipkartExample = true ∧
    strContains (formatQuery "What was Amazon\x27s revenue in 2023?")
      "Amazon\x27s revenue in 2023" = true :=
  ⟨strContains_query q,
   strContains_head _ q (by decide),
   strContains_head _ q (by decide),
   by decide⟩

/-- C7: for every query (multi-company ones included) the Prompt Builder
output contains the multi-entity instruction and the JSON-only
instruction verbatim; the builder merely emits these strings. -/
theorem c7_instructions (q : String) :
    strContains (formatQuery q) multiEntityRule = true ∧
    strContains (formatQuery q) jsonOnlyRule = true :=
  ⟨strContains_head _ q (by decide), strContains_head _ q (by decide)⟩

/-- C8: the Prompt Builder is a total pure function: for every input
string, including the empty string and strings with quotes, braces or
newlines, it returns a string, whose length is the template length plus
the query length; no failure, exception or side effect exists in its
embedding. -/
theorem c8_total (q : String) :
    (formatQuery q).length = promptHead.length + q.length + promptTail.length := by
  simp [formatQuery]

/-- C9: the credential is read from the environment exactly once at
process start, and every operation leaves the stored API_KEY unchanged:
both callLLM and processQuery return the state they were given. -/
theorem c9_frame {V : Type} (transport : Option String → String → Except Exc V)
    (inOp : V → Bool) (getErr : V → String) (st : AppState) (q : String)
    (env : String → Option String) :
    (initState env).apiKey = env "API_KEY" ∧
    (callLLM transport st q).1 = st ∧
    (processQuery transport inOp getErr st q).1 = st :=
  ⟨rfl, rfl, rfl⟩

/-- C10: the prompt is a constant template with the query interpolated at
exactly one position: there are fixed strings P and S, independent of the
input, with formatQuery q = P ++ q ++ S for every q, and the query text
undergoes no escaping or transformation. -/
theorem c10_template :
    ∃ P S : String, ∀ q : String, formatQuery q = P ++ q ++ S :=
  ⟨promptHead, promptTail, fun _ => rfl⟩

end LLMApp
